import Mathlib

/-!  Shallow embedding of the py-log-analyzer sources: src/worker.py
(Worker.process_chunk) and src/coordinator.py (Coordinator.distribute_work,
Coordinator.handle_worker_failure).

Python strings are modelled as List Char; the log files in scope are ASCII, so
Python's text-mode seek/read coincides with byte offsets and one Char is one
byte.  Python float division is modelled over ℚ.  A Python exception raised by
the modelled code (ZeroDivisionError, KeyError, ValueError) is modelled as
`none`; os.path.getsize is abstracted as a read-only size function on paths.
Components that the specification describes but that are absent from src/
(the task table, the result aggregator) are modelled from the spec and marked
as such in their doc comments.  -/

namespace LogAnalyzer

/-- The Python whitespace test used by str.strip() with no argument
(ASCII range, which is all that the modelled files contain). -/
def pySpace (c : Char) : Bool :=
  c == ' ' || c == '\t' || c == '\n' || c == '\r' || c == '\x0b' || c == '\x0c'

/-- Drop the longest suffix whose characters satisfy p. -/
def dropWhileEnd (p : Char → Bool) (s : List Char) : List Char :=
  (s.reverse.dropWhile p).reverse

/-- Python s.strip(chars): remove leading and trailing characters satisfying p. -/
def pyStrip (p : Char → Bool) (s : List Char) : List Char :=
  dropWhileEnd p (s.dropWhile p)

/-- Python substring containment, the `sub in s` test. -/
def containsSub (sub : List Char) : List Char → Bool
  | [] => sub.isEmpty
  | c :: cs => sub.isPrefixOf (c :: cs) || containsSub sub cs

/-- Python s.split(chr): split on every occurrence of a single character.
Always returns at least one piece, like Python ("".split(c) is [""]). -/
def splitChar (sep : Char) : List Char → List (List Char)
  | [] => [[]]
  | c :: cs =>
    if c == sep then [] :: splitChar sep cs
    else
      match splitChar sep cs with
      | [] => [[c]]
      | l :: ls => (c :: l) :: ls

/-- First occurrence of sep inside s: the part before it and the part after it. -/
def findSplit (sep : List Char) : List Char → Option (List Char × List Char)
  | [] => none
  | c :: cs =>
    if sep.isPrefixOf (c :: cs) then some ([], (c :: cs).drop sep.length)
    else (findSplit sep cs).map (fun pr => (c :: pr.1, pr.2))

/-- Fuelled worker for splitOnStr.  Each recursive step removes at least one
character (the separators in use are nonempty), so fuel = length suffices and
the fuelled function agrees with Python str.split. -/
def splitOnStrFuel (sep : List Char) : Nat → List Char → List (List Char)
  | 0, s => [s]
  | n + 1, s =>
    match findSplit sep s with
    | none => [s]
    | some (pre, post) => pre :: splitOnStrFuel sep n post

/-- Python s.split(sep) for a nonempty multi-character separator. -/
def splitOnStr (sep : List Char) (s : List Char) : List (List Char) :=
  splitOnStrFuel sep s.length s

/-- Numeric value of a decimal digit character. -/
def digitVal (c : Char) : Nat := c.toNat - '0'.toNat

/-- Value of a nonempty all-digit string. -/
def digitsToNat (ds : List Char) : Nat :=
  ds.foldl (fun acc c => acc * 10 + digitVal c) 0

/-- Digits part of Python int(): nonempty and all decimal digits, else error. -/
def pyIntDigits (ds : List Char) : Option Nat :=
  if ds = [] then none
  else if ds.all Char.isDigit then some (digitsToNat ds) else none

/-- Python int(str): strip surrounding whitespace, optional sign, then a
nonempty run of decimal digits; anything else raises ValueError (none). -/
def pyInt (s : List Char) : Option Int :=
  match pyStrip pySpace s with
  | '+' :: ds => (pyIntDigits ds).map (fun n => (n : Int))
  | '-' :: ds => (pyIntDigits ds).map (fun n => -(n : Int))
  | ds => (pyIntDigits ds).map (fun n => (n : Int))

/-- The error marker literal from worker.py: if "ERROR" in line. -/
def errMarker : List Char := "ERROR".toList

/-- The request pattern literal from worker.py: if "Request processed in" in line. -/
def reqPattern : List Char := "Request processed in".toList

/-- Test for the error marker on one line. -/
def hasError (l : List Char) : Bool := containsSub errMarker l

/-- Test for the request pattern on one line. -/
def hasReqPat (l : List Char) : Bool := containsSub reqPattern l

/-- worker.py line 28: int(line.split("in")[-1].strip("ms")); none models the
ValueError that a non-numeric duration raises. -/
def parseTime (l : List Char) : Option Int :=
  pyInt (pyStrip (fun c => c == 'm' || c == 's') ((splitOnStr "in".toList l).getLastD []))

/-- The mutable metrics dict built line by line in process_chunk. -/
structure Metrics where
  error_count : Nat
  response_times : List Int
  request_count : Nat
deriving DecidableEq, Repr

/-- Initial metrics dict: {"error_count": 0, "response_times": [], "request_count": 0}. -/
def initMetrics : Metrics := ⟨0, [], 0⟩

/-- One iteration of the for-loop over lines in process_chunk; none models the
uncaught ValueError aborting the whole call. -/
def stepLine (m : Metrics) (l : List Char) : Option Metrics :=
  let m1 := if hasError l then { m with error_count := m.error_count + 1 } else m
  if hasReqPat l then
    match parseTime l with
    | none => none
    | some t =>
      some { m1 with response_times := m1.response_times ++ [t],
                     request_count := m1.request_count + 1 }
  else some m1

/-- The whole for-loop over lines. -/
def runLines : Metrics → List (List Char) → Option Metrics
  | m, [] => some m
  | m, l :: ls =>
    match stepLine m l with
    | none => none
    | some m1 => runLines m1 ls

/-- worker.py line 22: chunk.strip().split("\n"). -/
def linesOfPy (chunk : List Char) : List (List Char) :=
  splitChar '\n' (pyStrip pySpace chunk)

/-- The dict returned by process_chunk. -/
structure ChunkOut where
  error_rate : ℚ
  avg_response_time : ℚ
  request_count : Nat
deriving DecidableEq, Repr

/-- Worker.process_chunk applied to the chunk text already read (worker.py
lines 19-38 after the seek/read); none models an uncaught ValueError. -/
def process_chunk (chunk : List Char) : Option ChunkOut :=
  match runLines initMetrics (linesOfPy chunk) with
  | none => none
  | some m =>
    some { error_rate := (m.error_count : ℚ) / ((linesOfPy chunk).length : ℚ),
           avg_response_time :=
             if m.response_times = [] then 0
             else ((m.response_times.sum : Int) : ℚ) / (m.response_times.length : ℚ),
           request_count := m.request_count }

/-- file.seek(start); file.read(size) on an in-memory ASCII file. -/
def readChunk (file : List Char) (start size : Nat) : List Char :=
  (file.drop start).take size

/-- Worker.process_chunk on a file, an offset and a size. -/
def process_chunk_file (file : List Char) (start size : Nat) : Option ChunkOut :=
  process_chunk (readChunk file start size)

/-! Coordinator (src/coordinator.py).  self.workers is a Python dict from
worker id to a worker-data dict; the only field the source reads from the
worker data is "filepath", so a worker entry is modelled as an id paired with
a filepath.  Dict iteration order is insertion order, so the dict is a list of
pairs with distinct keys. -/

/-- The for-loop of distribute_work: start = 0; for each worker,
assign(worker_id, start, chunk_size); start = start + chunk_size.  Returns the
sequence of (worker_id, offset, length) assignments in loop order. -/
def assignChunks (chunk_size : Nat) : Nat → List String → List (String × Nat × Nat)
  | _, [] => []
  | start, w :: ws => (w, start, chunk_size) :: assignChunks chunk_size (start + chunk_size) ws

/-- Coordinator.distribute_work (coordinator.py lines 17-26) given the
registered worker ids and the file size: chunk_size = file_size // len(workers)
(none models the ZeroDivisionError when no worker is registered), then one
assignment per worker in registry order. -/
def distribute_work (workers : List String) (file_size : Nat) : Option (List (String × Nat × Nat)) :=
  if workers.length = 0 then none
  else some (assignChunks (file_size / workers.length) 0 workers)

/-- Dict lookup in the worker registry. -/
def lookupWorker (w : String) : List (String × String) → Option String
  | [] => none
  | (w1, d) :: rest => if w1 = w then some d else lookupWorker w rest

/-- Dict pop: remove the entry for w, keeping the order of the rest. -/
def popWorker (w : String) (ws : List (String × String)) : List (String × String) :=
  ws.filter (fun p => decide (p.1 ≠ w))

/-- Coordinator.handle_worker_failure (coordinator.py lines 28-32) given the
file sizes (fs abstracts os.path.getsize): pop the failed worker from
self.workers (none models the KeyError when it is absent), then
distribute_work on that worker's filepath over the remaining workers.
Returns the new registry and the new assignments. -/
def handle_worker_failure (fs : String → Nat) (workers : List (String × String))
    (worker_id : String) : Option (List (String × String) × List (String × Nat × Nat)) :=
  match lookupWorker worker_id workers with
  | none => none
  | some filepath =>
    let remaining := popWorker worker_id workers
    (distribute_work (remaining.map Prod.fst) (fs filepath)).map (fun asg => (remaining, asg))

/-! Aggregation.  src/coordinator.py only initializes self.results = {} and
never stores or folds results, so the aggregate fold and the result-acceptance
rule are modelled from the spec (§4.5). -/

/-- Modelled from the spec: the global request count of the AggregateMetric,
Σ request_count over per-chunk results (§4.5); the fold itself is missing from
src/coordinator.py, which only creates the empty results dict. -/
def aggRequestCount (outs : List ChunkOut) : Nat :=
  (outs.map (fun o => o.request_count)).sum

/-- Modelled from the spec: the global weighted average response time,
(Σ per-result average × per-result request_count) / total request_count
(§4.5); missing from src/coordinator.py. -/
def aggAvgResponseTime (outs : List ChunkOut) : ℚ :=
  if aggRequestCount outs = 0 then 0
  else (outs.map (fun o => o.avg_response_time * (o.request_count : ℚ))).sum
        / (aggRequestCount outs : ℚ)

/-- Run process_chunk over every assigned byte range of a file and collect the
per-chunk outputs; none if any chunk aborts. -/
def chunkOuts (file : List Char) (ranges : List (String × Nat × Nat)) : Option (List ChunkOut) :=
  ranges.mapM (fun r => process_chunk_file file r.2.1 r.2.2)

/-! Task lifecycle.  The spec's TaskTable / ResultAggregator state machine has
no counterpart in src/ at all (no task objects, no states, no acceptance
code), so it is modelled from the spec for the idempotence claim. -/

/-- Modelled from the spec: the task lifecycle states of §3 (the TaskTable is
missing from src/). -/
inductive TaskState
  | Pending
  | Assigned (w : String)
  | InProgress (w : String)
  | Completed
  | FailedPermanently
deriving DecidableEq, Repr

/-- Modelled from the spec: a stored per-task Result (§3), keyed by task id;
missing from src/. -/
structure SpecResult where
  error_count : Nat
  response_times : List Int
  request_count : Nat
  line_count : Nat
deriving DecidableEq, Repr

/-- Modelled from the spec: the coordinator's task table and stored results
(§3); missing from src/, which has only the empty results dict. -/
structure AggState where
  tasks : List (Nat × TaskState)
  results : List (Nat × SpecResult)
deriving DecidableEq, Repr

/-- Lookup of a task's state in the task table. -/
def lookupTask (t : Nat) : List (Nat × TaskState) → Option TaskState
  | [] => none
  | (t1, s) :: rest => if t1 = t then some s else lookupTask t rest

/-- In-place update of a task's state in the task table. -/
def setTask (t : Nat) (s : TaskState) : List (Nat × TaskState) → List (Nat × TaskState)
  | [] => []
  | (t1, s1) :: rest => if t1 = t then (t1, s) :: rest else (t1, s1) :: setTask t s rest

/-- Modelled from the spec: ResultAggregator acceptance (§4.5), which is
missing from src/.  If the task is already Completed the report is a duplicate
and is discarded; if it is Assigned or InProgress and the reporter is the
current owner, the result is stored and the task becomes Completed; any other
report (non-owner, unknown task, Pending, FailedPermanently) is discarded. -/
def accept_result (st : AggState) (t : Nat) (w : String) (r : SpecResult) : AggState :=
  match lookupTask t st.tasks with
  | some TaskState.Completed => st
  | some (TaskState.Assigned w1) =>
    if w1 = w then
      { tasks := setTask t TaskState.Completed st.tasks, results := st.results ++ [(t, r)] }
    else st
  | some (TaskState.InProgress w1) =>
    if w1 = w then
      { tasks := setTask t TaskState.Completed st.tasks, results := st.results ++ [(t, r)] }
    else st
  | _ => st

/-! Concrete inputs used by the theorems below. -/

/-- A one-request log file of 26 bytes. -/
def file26 : List Char := "Request processed in 20ms\n".toList

/-- A chunk with one whitespace-free error line. -/
def chunkErr : List Char := "ERROR x".toList

/-! Theorems. -/

/-- Claim C1: for every file size and worker count at least 1 the partition is
ordered, non-overlapping, line-aligned, and its lengths sum to the file size.
The code violates this: with file size 10 and three registered workers,
distribute_work emits the ranges (0,3), (3,3), (6,3), whose lengths sum to 9,
not 10 — the remainder byte is never assigned (and no boundary is moved to a
line terminator). -/
theorem c1_partition_drops_bytes :
    distribute_work ["w1", "w2", "w3"] 10
      = some [("w1", 0, 3), ("w2", 3, 3), ("w3", 6, 3)] ∧
    (([("w1", 0, 3), ("w2", 3, 3), ("w3", 6, 3)] : List (String × Nat × Nat)).map
      (fun r => r.2.2)).sum ≠ 10 := by
  constructor
  · rfl
  · decide

/-- Claim C2: the aggregate is invariant to the worker count used to chunk the
file.  The code violates this: on the 26-byte file consisting of the single
line "Request processed in 20ms", one worker yields global request count 1,
but two workers split the line mid-pattern and yield global request count 0. -/
theorem c2_rechunk_changes_aggregate :
    ((distribute_work ["w1"] 26).bind (chunkOuts file26)).map aggRequestCount = some 1 ∧
    ((distribute_work ["w1", "w2"] 26).bind (chunkOuts file26)).map aggRequestCount = some 0 := by
  constructor
  · rfl
  · rfl

/-- Claim C5: handling a worker failure reverts exactly the failed worker's
Assigned/InProgress tasks to Pending and re-enqueues them, leaving other
workers' and completed tasks alone.  The code violates this: with workers a, b
over a 40-byte file (initial ranges a:(0,20), b:(20,20)), handle_worker_failure
of b pops b and re-distributes the whole file, assigning (0,40) to a — which
re-covers a's own range 0..19, not only b's work. -/
theorem c5_failure_redistributes_whole_file :
    distribute_work ["a", "b"] 40 = some [("a", 0, 20), ("b", 20, 20)] ∧
    handle_worker_failure (fun _ => 40) [("a", "big.log"), ("b", "big.log")] "b"
      = some ([("a", "big.log")], [("a", 0, 40)]) := by
  constructor
  · rfl
  · rfl

/-- Claim C6: a line matching the request pattern with a non-numeric duration
is skipped and the rest of the chunk is still processed.  The code violates
this: on a chunk whose middle line is "Request processed in XXms", the int()
call raises ValueError and the whole process_chunk call aborts (none), instead
of returning the metrics of the remaining lines. -/
theorem c6_malformed_line_aborts_chunk :
    process_chunk "ERROR a\nRequest processed in XXms\nRequest processed in 5ms".toList
      = none := by
  rfl

/-- Claim C7: once a task is Completed, no operation transitions it out of
Completed (its range is never re-processed).  The code violates this: with
workers w1, w2, w3 over a 30-byte file (initial ranges (0,10), (10,10),
(20,10)) and w1's chunk (0,10) completed, handle_worker_failure of w3
re-distributes the entire file, assigning (0,15) and (15,15) — the completed
range 0..9 is assigned and processed again. -/
theorem c7_completed_range_reassigned :
    distribute_work ["w1", "w2", "w3"] 30
      = some [("w1", 0, 10), ("w2", 10, 10), ("w3", 20, 10)] ∧
    handle_worker_failure (fun _ => 30)
      [("w1", "x.log"), ("w2", "x.log"), ("w3", "x.log")] "w3"
      = some ([("w1", "x.log"), ("w2", "x.log")], [("w1", 0, 15), ("w2", 15, 15)]) := by
  constructor
  · rfl
  · rfl

/-- Claim C8: after failure handling, the failed worker's registry entry is
retained for audit.  The code violates this: self.workers.pop deletes the
entry, so after handle_worker_failure of w2 the registry holds only w1 and a
lookup of w2 returns nothing. -/
theorem c8_failed_worker_entry_deleted :
    handle_worker_failure (fun _ => 20) [("w1", "app.log"), ("w2", "app.log")] "w2"
      = some ([("w1", "app.log")], [("w1", 0, 20)]) ∧
    lookupWorker "w2" [("w1", "app.log")] = none := by
  constructor
  · rfl
  · rfl

/-- Claim C9: distribute_work with an empty worker registry fails (the
chunk-size computation divides by zero), and with at least one registered
worker it returns a distribution. -/
theorem c9_empty_registry_division (file_size : Nat) (workers : List String) :
    distribute_work [] file_size = none ∧
    (workers ≠ [] → (distribute_work workers file_size).isSome = true) := by
  constructor
  · rfl
  · intro h
    have hlen : workers.length ≠ 0 := by
      simpa using h
    simp [distribute_work, hlen]

/-- Witness for C9 at file size 26 with one registered worker. -/
theorem c9_empty_registry_division_witness :
    (["w1"] : List String) ≠ [] ∧ (distribute_work ["w1"] 26).isSome = true :=
  ⟨by decide, (c9_empty_registry_division 26 ["w1"]).2 (by decide)⟩

/-- After setting a present task to s, looking it up yields s. -/
lemma lookupTask_setTask (t : Nat) (s : TaskState) :
    ∀ l : List (Nat × TaskState), (lookupTask t l).isSome →
      lookupTask t (setTask t s l) = some s := by
  intro l
  induction l with
  | nil => simp [lookupTask]
  | cons p rest ih =>
    obtain ⟨t1, s1⟩ := p
    by_cases h : t1 = t
    · simp [lookupTask, setTask, h]
    · simp [lookupTask, setTask, h]
      exact ih

/-- Claim C4: a result reported for an already-Completed task is discarded
unchanged, and delivering the same worker's report twice has the same effect
as delivering it once (the first accepted result wins, so a duplicate is
counted exactly once in the stored results and hence in the aggregate). -/
theorem c4_duplicate_result_once (st : AggState) (t : Nat) (w w2 : String)
    (r r2 : SpecResult) :
    (lookupTask t st.tasks = some TaskState.Completed → accept_result st t w2 r2 = st) ∧
    accept_result (accept_result st t w r) t w r2 = accept_result st t w r := by
  constructor
  · intro h
    simp [accept_result, h]
  · rcases hl : lookupTask t st.tasks with _ | s
    · simp [accept_result, hl]
    · cases s with
      | Pending => simp [accept_result, hl]
      | Completed => simp [accept_result, hl]
      | FailedPermanently => simp [accept_result, hl]
      | Assigned w1 =>
        by_cases hw : w1 = w
        · have hc : lookupTask t (setTask t TaskState.Completed st.tasks)
              = some TaskState.Completed :=
            lookupTask_setTask t TaskState.Completed st.tasks (by rw [hl]; rfl)
          simp [accept_result, hl, hw, hc]
        · simp [accept_result, hl, hw]
      | InProgress w1 =>
        by_cases hw : w1 = w
        · have hc : lookupTask t (setTask t TaskState.Completed st.tasks)
              = some TaskState.Completed :=
            lookupTask_setTask t TaskState.Completed st.tasks (by rw [hl]; rfl)
          simp [accept_result, hl, hw, hc]
        · simp [accept_result, hl, hw]

/-- A one-task table whose task 0 is Completed, with no stored results. -/
def stCompleted : AggState := ⟨[(0, TaskState.Completed)], []⟩

/-- An empty stored result. -/
def resEmpty : SpecResult := ⟨0, [], 0, 0⟩

/-- Witness for C4: on a state whose task 0 is Completed, a report for task 0
is discarded unchanged. -/
theorem c4_duplicate_result_once_witness :
    lookupTask 0 stCompleted.tasks = some TaskState.Completed ∧
    accept_result stCompleted 0 "w" resEmpty = stCompleted :=
  ⟨rfl, (c4_duplicate_result_once stCompleted 0 "w" "w" resEmpty resEmpty).1 rfl⟩

/-- The response-time sample a line contributes, if any: a line matching the
request pattern contributes its parsed duration, any other line contributes
nothing. -/
def lineSample (l : List Char) : Option Int :=
  if hasReqPat l then parseTime l else none

/-- Characterization of the process_chunk for-loop: when every
pattern-matching line parses, the loop succeeds, counts the error lines,
appends the samples in order, and counts one request per sample. -/
lemma runLines_eq (lines : List (List Char))
    (h : ∀ l ∈ lines, hasReqPat l = true → (parseTime l).isSome) (m : Metrics) :
    runLines m lines = some
      { error_count := m.error_count + lines.countP hasError,
        response_times := m.response_times ++ lines.filterMap lineSample,
        request_count := m.request_count + (lines.filterMap lineSample).length } := by
  induction lines generalizing m with
  | nil => simp [runLines]
  | cons l ls ih =>
    have hl : hasReqPat l = true → (parseTime l).isSome := h l (by simp)
    have hrest : ∀ x ∈ ls, hasReqPat x = true → (parseTime x).isSome :=
      fun x hx => h x (by simp [hx])
    by_cases hp : hasReqPat l = true
    · obtain ⟨t, ht⟩ := Option.isSome_iff_exists.mp (hl hp)
      have hsample : lineSample l = some t := by simp [lineSample, hp, ht]
      by_cases he : hasError l = true
      · have hstep : stepLine m l
            = some ⟨m.error_count + 1, m.response_times ++ [t], m.request_count + 1⟩ := by
          simp [stepLine, hp, ht, he]
        simp only [runLines, hstep]
        rw [ih hrest]
        simp [List.countP_cons, List.filterMap_cons, he, hsample, List.append_assoc]
        omega
      · have hstep : stepLine m l
            = some ⟨m.error_count, m.response_times ++ [t], m.request_count + 1⟩ := by
          simp [stepLine, hp, ht, he]
        simp only [runLines, hstep]
        rw [ih hrest]
        simp [List.countP_cons, List.filterMap_cons, he, hsample, List.append_assoc]
        omega
    · have hsample : lineSample l = none := by simp [lineSample, hp]
      by_cases he : hasError l = true
      · have hstep : stepLine m l
            = some ⟨m.error_count + 1, m.response_times, m.request_count⟩ := by
          simp [stepLine, hp, he]
        simp only [runLines, hstep]
        rw [ih hrest]
        simp [List.countP_cons, List.filterMap_cons, he, hsample]
        omega
      · have hstep : stepLine m l = some m := by
          simp [stepLine, hp, he]
        simp only [runLines, hstep]
        rw [ih hrest]
        simp [List.countP_cons, List.filterMap_cons, he, hsample]

/-- Claim C3: on any chunk of 10 lines of which exactly 2 carry the error
marker and whose pattern lines parse to exactly the samples 10, 20 and 30,
process_chunk returns error rate 0.2, average response time 20 and request
count 3. -/
theorem c3_ten_line_aggregate (chunk : List Char)
    (h1 : (linesOfPy chunk).length = 10)
    (h2 : (linesOfPy chunk).countP hasError = 2)
    (h3 : (linesOfPy chunk).filterMap lineSample = [10, 20, 30])
    (h4 : ∀ l ∈ linesOfPy chunk, hasReqPat l = true → (parseTime l).isSome) :
    process_chunk chunk
      = some { error_rate := 0.2, avg_response_time := 20, request_count := 3 } := by
  unfold process_chunk
  rw [runLines_eq _ h4]
  simp [initMetrics, h1, h2, h3]
  norm_num

/-- The 10-line log file used as the C3 witness: 2 error lines, 3 request
lines with durations 10, 20 and 30. -/
def file10 : List Char :=
  ("line one ok\nERROR disk failure\nRequest processed in 10ms\nplain line\n"
    ++ "Request processed in 20ms\nERROR timeout\nanother line\n"
    ++ "Request processed in 30ms\nfinal line\nlast line\n").toList

/-- Witness for C3 at the concrete 10-line file. -/
theorem c3_ten_line_aggregate_witness :
    ((linesOfPy file10).length = 10 ∧
     (linesOfPy file10).countP hasError = 2 ∧
     (linesOfPy file10).filterMap lineSample = [10, 20, 30] ∧
     (∀ l ∈ linesOfPy file10, hasReqPat l = true → (parseTime l).isSome)) ∧
    process_chunk file10
      = some { error_rate := 0.2, avg_response_time := 20, request_count := 3 } :=
  ⟨⟨by decide, by decide, by decide, by decide⟩,
    c3_ten_line_aggregate file10 (by decide) (by decide) (by decide) (by decide)⟩

/-- Splitting on a character always yields at least one piece. -/
lemma splitChar_length_pos (sep : Char) (s : List Char) :
    0 < (splitChar sep s).length := by
  induction s with
  | nil => simp [splitChar]
  | cons c cs ih =>
    by_cases h : (c == sep) = true
    · simp [splitChar, h]
    · rcases hs : splitChar sep cs with _ | ⟨l, ls⟩
      · simp [splitChar, h, hs]
      · simp [splitChar, h, hs]

/-- Claim C10: process_chunk never divides by zero — the line split of the
stripped chunk is never empty, so the error-rate denominator is at least 1,
and when the loop finishes with no response-time samples the average is the
guarded value 0 rather than a division. -/
theorem c10_no_division_by_zero :
    (∀ chunk : List Char, 0 < (linesOfPy chunk).length) ∧
    (∀ (chunk : List Char) (m : Metrics),
      runLines initMetrics (linesOfPy chunk) = some m →
      m.response_times = [] →
      process_chunk chunk = some
        { error_rate := (m.error_count : ℚ) / ((linesOfPy chunk).length : ℚ),
          avg_response_time := 0,
          request_count := m.request_count }) := by
  constructor
  · intro chunk
    exact splitChar_length_pos '\n' (pyStrip pySpace chunk)
  · intro chunk m hrun hempty
    unfold process_chunk
    rw [hrun]
    simp [hempty]

/-- Witness for C10 at a one-line error chunk with no samples. -/
theorem c10_no_division_by_zero_witness :
    0 < (linesOfPy chunkErr).length ∧
    process_chunk chunkErr = some
      { error_rate := ((1 : Nat) : ℚ) / ((linesOfPy chunkErr).length : ℚ),
        avg_response_time := 0,
        request_count := 0 } :=
  ⟨c10_no_division_by_zero.1 chunkErr,
    c10_no_division_by_zero.2 chunkErr ⟨1, [], 0⟩ (by rfl) (by rfl)⟩

end LogAnalyzer
